import Mathlib

/-!
Shallow embedding of the document segmentation and classification core of
`src/pilotmila.py`: the class `LawReviewClassifier` (steps A-E of `classify`),
the page segmenter `find_footnote_separator`, and the word/character counting
part of `extract_pdf_text_and_metadata`.

Modelling conventions:
- Python strings are Lean `String` (or `List Char` where character-level
  scanning is needed); `s1 in s2` is `decide (s1.toList <:+: s2.toList)`.
- Python float literals (`0.2`, `0.85`, `0.6`, `0.5`) are the rationals they
  denote; page coordinates are `ℚ`.
- Python dicts with fixed keys are structures.  The `result` dict of
  `classify` becomes `CResult`; its `word_count` key, which is read by
  `_step_d_validation` via `result.get('word_count', 0)` but never written by
  `classify`, is an `Option Nat` field that stays `none`, read with default 0.
- `page.crop((0,0,w,y)).extract_text()` and `page.crop((0,y,w,h)).extract_text()`
  are external pdfplumber capabilities; a `Page` carries them as the opaque
  string-valued fields `cropAbove`/`cropBelow`, alongside the page's own
  extracted `text` (`page.extract_text() or ""`).
- `re.findall(r'Class of (\d{4})', authors)`: since the pattern `Class of `
  followed by four digits cannot overlap itself (the letter `C` occurs only at
  its start), the non-overlapping `findall` semantics coincide with scanning
  every suffix, which is how `classMatches` is defined.
-/

namespace Pilotmila

/-! ## Classifier data model (`LawReviewClassifier`, `classify`'s result dict) -/

/-- The `paper_data` dict handed to `classify` by `scrape_law_journal`. -/
structure PaperData where
  title : String
  authors : String
  words : Nat
  pages : Nat
  main_text : String

/-- One entry of `result['steps']`; one constructor per distinct dict shape
appended by the five steps (`DUnknown` is the `Unknown label` record of
`_step_d_validation`'s else-branch). -/
inductive TraceStep where
  | A (pages : Nat) (action : String)
  | B (keywords_found : List (String × List String)) (categories : List String) (action : String)
  | C (jd_candidate class_year criterion_1 : Bool) (word_count : Nat)
      (criterion_2 both_met : Bool) (action : String)
  | D (current_label : String) (word_count : Nat) (condition_met : Option Bool)
      (final_label : String)
  | DUnknown (current_label : String)
  | E

deriving instance DecidableEq for TraceStep

/-- The `result` dict of `classify`.  `word_count` and
`requires_manual_review` model dict keys that are absent until written
(`classify` never writes `word_count`; step E writes
`requires_manual_review`); the remaining fields are initialised by
`classify`. -/
structure CResult where
  label : String
  steps : List TraceStep
  confidence : ℚ
  errors : List String
  word_count : Option Nat
  requires_manual_review : Bool

deriving instance DecidableEq for CResult

/-- One entry of `LawReviewClassifier.classification_log`. -/
structure LogEntry where
  title : String
  year : Int
  result : CResult

deriving instance DecidableEq for LogEntry

/-- `LawReviewClassifier.LABELS` (the source stores a set; order is the
source's literal order). -/
def LABELS : List String :=
  ["Unlabeled", "Article", "Essay", "Article_OR_Essay",
   "Note", "Comment", "Note_OR_Comment", "Miscellaneous", "ERROR"]

/-- The four confirmed variants produced by `_step_d_validation`'s table. -/
def confirmedLabels : List String :=
  ["Article (confirmed)", "Essay (confirmed)", "Note (confirmed)", "Comment (confirmed)"]

/-- `LawReviewClassifier.SECTION_KEYWORDS`, in dict insertion order. -/
def SECTION_KEYWORDS : List (String × List String) :=
  [("ARTICLE", ["ARTICLE", "ARTICLES"]),
   ("ESSAY", ["ESSAY", "ESSAYS"]),
   ("NOTE", ["NOTE", "NOTES"]),
   ("COMMENT", ["COMMENT", "COMMENTS"]),
   ("STUDENT_CONTRIBUTION", ["STUDENT CONTRIBUTION", "STUDENT CONTRIBUTIONS"])]

/-- The `result` dict as initialised at the top of `classify`. -/
def initResult : CResult :=
  { label := "Unlabeled", steps := [], confidence := 0, errors := [],
    word_count := none, requires_manual_review := false }

/-! ## Steps A-E of `classify` -/

/-- `LawReviewClassifier._step_a_preprocessing`. -/
def step_a_preprocessing (paper : PaperData) (result : CResult) : CResult :=
  let pages := paper.pages
  if pages ≤ 3 then
    { result with
      label := "Misc"
      steps := result.steps ++ [TraceStep.A pages "Label Misc"] }
  else
    { result with
      steps := result.steps ++ [TraceStep.A pages "Continue to next step"] }

/-- `LawReviewClassifier._apply_decision_logic`.  The source compares
`set(categories)` with two-element set literals; for a list this is `all
elements are one of the pair, and both occur`. -/
def apply_decision_logic (categories : List String) : String :=
  if categories.isEmpty then "Continue"
  else if categories.length = 1 then
    let cat := categories.headD ""
    if cat = "ARTICLE" then "Article"
    else if cat = "ESSAY" then "Essay"
    else if cat = "NOTE" then "Note"
    else if cat = "COMMENT" then "Comment"
    else if cat = "STUDENT_CONTRIBUTION" then "Note_OR_Comment"
    else "ERROR"
  else if categories.length = 2 then
    if categories.all (fun c => c == "ARTICLE" || c == "ESSAY")
        && categories.contains "ARTICLE" && categories.contains "ESSAY" then
      "Article_OR_Essay"
    else if categories.all (fun c => c == "NOTE" || c == "COMMENT")
        && categories.contains "NOTE" && categories.contains "COMMENT" then
      "Note_OR_Comment"
    else "ERROR"
  else "ERROR"

/-- `LawReviewClassifier._step_b_keyword_lookup`.  The source also builds an
unused `first_3_pages` variable (first 1000 whitespace words); the actual
search is `keyword in text[:3000]`, embedded here as an infix test on the
first 3000 characters. -/
def step_b_keyword_lookup (paper : PaperData) (result : CResult) : CResult :=
  let search_region := paper.main_text.toList.take 3000
  let found_keywords := SECTION_KEYWORDS.map
    (fun ck => (ck.1, ck.2.filter (fun kw => decide (kw.toList <:+: search_region))))
  let categories_found := (found_keywords.filter (fun ck => !ck.2.isEmpty)).map
    (fun ck => ck.1)
  let decision := apply_decision_logic categories_found
  if decision ≠ "Continue" then
    { result with
      label := decision
      steps := result.steps ++
        [TraceStep.B found_keywords categories_found ("Label " ++ decision)] }
  else
    { result with
      steps := result.steps ++
        [TraceStep.B found_keywords categories_found
          "No definitive keywords. Continue to Step C"] }

/-- Whether a suffix of the authors string starts with `Class of ` followed by
four decimal digits; if so, the four-digit year. -/
def classYearAt (s : List Char) : Option Nat :=
  if ("Class of ".toList).isPrefixOf s then
    match s.drop 9 with
    | d1 :: d2 :: d3 :: d4 :: _ =>
      if d1.isDigit && d2.isDigit && d3.isDigit && d4.isDigit then
        some ((d1.toNat - 48) * 1000 + (d2.toNat - 48) * 100 +
              (d3.toNat - 48) * 10 + (d4.toNat - 48))
      else none
    | _ => none
  else none

/-- All years matched by `re.findall(r'Class of (\d{4})', authors)` (see the
header comment on why a suffix scan is equivalent). -/
def classMatches : List Char → List Nat
  | [] => []
  | c :: rest =>
    match classYearAt (c :: rest) with
    | some y => y :: classMatches rest
    | none => classMatches rest

/-- `LawReviewClassifier._step_c_student_check`. -/
def step_c_student_check (paper : PaperData) (result : CResult)
    (publication_year : Int) : CResult :=
  if result.label ≠ "Unlabeled" then result
  else
    let authors := paper.authors.toList
    let word_count := paper.words
    let jd_candidate_match := decide ("J.D. Candidate".toList <:+: authors)
    let class_year_match :=
      if jd_candidate_match then false
      else (classMatches authors).any
        (fun cy => decide (((cy : Int) - publication_year).natAbs ≤ 3))
    let criterion_1_met := jd_candidate_match || class_year_match
    let criterion_2_met := decide (word_count ≤ 20000)
    let both_criteria_met := criterion_1_met && criterion_2_met
    if both_criteria_met then
      { result with
        label := "Note_OR_Comment"
        steps := result.steps ++
          [TraceStep.C jd_candidate_match class_year_match criterion_1_met
            word_count criterion_2_met both_criteria_met
            "both criteria met. label Note_OR_Comment"] }
    else
      { result with
        steps := result.steps ++
          [TraceStep.C jd_candidate_match class_year_match criterion_1_met
            word_count criterion_2_met both_criteria_met
            "criteria not fully met. continue to final step"] }

/-- The string-valued lambda of the `Note_OR_Comment` row of
`validation_table`. -/
def note_or_comment_resolution (wc : Nat) : String :=
  if wc < 10000 then "Comment"
  else if 10000 ≤ wc ∧ wc ≤ 20000 then "Note"
  else "ERROR"

/-- The keys of `validation_table` (membership test `current_label in
validation_table`). -/
def validation_table_keys : List String :=
  ["Article", "Essay", "Article_OR_Essay", "Note", "Comment",
   "Note_OR_Comment", "Unlabeled", "Miscellaneous"]

/-- The boolean-predicate rows of `validation_table`
(`Note_OR_Comment` is special-cased in `step_d_validation`, as in the source;
the final catch-all row is never consulted). -/
def validation_entry (label : String) : (Nat → Bool) × String × String :=
  if label = "Article" then (fun wc => decide (wc > 15000), "Article (confirmed)", "ERROR")
  else if label = "Essay" then (fun wc => decide (wc < 20000), "Essay (confirmed)", "ERROR")
  else if label = "Article_OR_Essay" then (fun wc => decide (wc > 15000), "Article", "Essay")
  else if label = "Note" then (fun wc => decide (wc < 18000), "Note (confirmed)", "ERROR")
  else if label = "Comment" then (fun wc => decide (wc < 10000), "Comment (confirmed)", "ERROR")
  else if label = "Unlabeled" then (fun wc => decide (wc > 18000), "Article", "ERROR")
  else if label = "Miscellaneous" then (fun _ => true, "Miscellaneous", "Miscellaneous")
  else (fun _ => false, "", "")

/-- `LawReviewClassifier._step_d_validation`.  Note the source's
`word_count = result.get('word_count', 0)`: the key is never written by
`classify`, modelled by `result.word_count.getD 0`. -/
def step_d_validation (result : CResult) : CResult :=
  let word_count := result.word_count.getD 0
  let current_label := result.label
  if current_label ∈ validation_table_keys then
    if current_label = "Note_OR_Comment" then
      let final_label := note_or_comment_resolution word_count
      { result with
        label := final_label
        steps := result.steps ++
          [TraceStep.D current_label word_count none final_label] }
    else
      let e := validation_entry current_label
      let final_label := if e.1 word_count then e.2.1 else e.2.2
      { result with
        label := final_label
        steps := result.steps ++
          [TraceStep.D current_label word_count (some (e.1 word_count)) final_label] }
  else
    { result with steps := result.steps ++ [TraceStep.DUnknown current_label] }

/-- `LawReviewClassifier._step_e_llm_fallback` (placeholder step). -/
def step_e_llm_fallback (_paper : PaperData) (result : CResult)
    (_publication_year : Int) : CResult :=
  { result with
    steps := result.steps ++ [TraceStep.E]
    label := "ERROR"
    requires_manual_review := true }

/-! ## `classify` and the classification log -/

/-- The `result` value after step A inside `classify`. -/
def result_after_a (paper : PaperData) : CResult :=
  step_a_preprocessing paper initResult

/-- The `result` value after step B (reached only when step A continued). -/
def result_after_b (paper : PaperData) : CResult :=
  step_b_keyword_lookup paper (result_after_a paper)

/-- The `result` value after step C. -/
def result_after_c (paper : PaperData) (publication_year : Int) : CResult :=
  step_c_student_check paper (result_after_b paper) publication_year

/-- The `result` value after step D. -/
def result_after_d (paper : PaperData) (publication_year : Int) : CResult :=
  step_d_validation (result_after_c paper publication_year)

/-- `LawReviewClassifier.classify`, with the instance state
`self.classification_log` passed and returned explicitly.  The early return
after step A (`if result['label'] != 'Unlabeled': return result`) skips the
log append, exactly as in the source. -/
def classifyWithLog (log : List LogEntry) (paper : PaperData)
    (publication_year : Int) : CResult × List LogEntry :=
  let result := result_after_a paper
  if result.label ≠ "Unlabeled" then (result, log)
  else
    let result := step_b_keyword_lookup paper result
    let result := step_c_student_check paper result publication_year
    let result := step_d_validation result
    let result := if result.label = "ERROR"
      then step_e_llm_fallback paper result publication_year else result
    (result, log ++ [{ title := paper.title, year := publication_year, result := result }])

/-- The classification result of one `classify` call. -/
def classifyResult (paper : PaperData) (publication_year : Int) : CResult :=
  (classifyWithLog [] paper publication_year).1

/-- The step identifier (`'step'` dict key) of a trace record. -/
def stepTag : TraceStep → String
  | .A _ _ => "A"
  | .B _ _ _ => "B"
  | .C _ _ _ _ _ _ _ => "C"
  | .D _ _ _ _ => "D"
  | .DUnknown _ => "D"
  | .E => "E"

/-! ## Page geometry and segmentation (`find_footnote_separator`) -/

/-- An entry of the `horizontal_lines` list (the dict built for a surviving
line or rect primitive). -/
structure HLine where
  y : ℚ
  x0 : ℚ
  x1 : ℚ
  width : ℚ

deriving instance DecidableEq for HLine

/-- One page as consumed by `find_footnote_separator`: geometry primitives
(each a well-formed `(x0, top, x1, bottom)` quadruple; malformed primitives
are skipped by the source and are not representable here), the page's
extracted text, and the external crop-extraction capability. -/
structure Page where
  width : ℚ
  height : ℚ
  lines : List (ℚ × ℚ × ℚ × ℚ)
  rects : List (ℚ × ℚ × ℚ × ℚ)
  text : String
  cropAbove : ℚ → String
  cropBelow : ℚ → String

/-- The line-primitive filter of `find_footnote_separator`. -/
def lineToHLine (page_width : ℚ) (l : ℚ × ℚ × ℚ × ℚ) : Option HLine :=
  match l with
  | (x0, top, x1, bottom) =>
    if |top - bottom| < 2 then
      let line_width := |x1 - x0|
      if line_width > page_width * (1/2) then
        some { y := top, x0 := min x0 x1, x1 := max x0 x1, width := line_width }
      else none
    else none

/-- The rect-primitive filter of `find_footnote_separator`. -/
def rectToHLine (page_width : ℚ) (r : ℚ × ℚ × ℚ × ℚ) : Option HLine :=
  match r with
  | (x0, top, x1, bottom) =>
    let height := |bottom - top|
    let width := |x1 - x0|
    if height < 2 ∧ width > page_width * (1/2) then
      some { y := top, x0 := min x0 x1, x1 := max x0 x1, width := width }
    else none

/-- The `horizontal_lines` list of a page (lines first, then rects, in
source order). -/
def horizontalLines (page : Page) : List HLine :=
  (page.lines.filterMap (lineToHLine page.width)) ++
    (page.rects.filterMap (rectToHLine page.width))

/-- The `separator_candidates` list: horizontal lines in the vertical band
`0.2*height < y < 0.85*height`. -/
def separatorCandidates (page : Page) : List HLine :=
  (horizontalLines page).filter
    (fun l => decide (page.height * (1/5) < l.y ∧ l.y < page.height * (17/20)))

/-- Python's `min(c :: cs, key)` with `key x = |x.y - h06|`: the first
element attaining the minimal key. -/
def minByDist (h06 : ℚ) (c : HLine) (cs : List HLine) : HLine :=
  cs.foldl (fun best x => if |x.y - h06| < |best.y - h06| then x else best) c

/-- The loop state of `find_footnote_separator`: the two accumulated text
buffers and the separator variables, which are initialised once before the
page loop and persist across pages. -/
structure SegState where
  main_text : String
  footnotes_text : String
  separator_found : Bool
  separator_y : Option ℚ

deriving instance DecidableEq for SegState

/-- The state before the page loop of `find_footnote_separator`. -/
def initSegState : SegState :=
  { main_text := "", footnotes_text := "", separator_found := false,
    separator_y := none }

/-- One iteration of the page loop of `find_footnote_separator`.  When the
candidate list is empty, `separator_found`/`separator_y` keep their values
from previous pages (they are never reset in the source); the crop branch
runs whenever `separator_found and separator_y is not None`. -/
def processPage (st : SegState) (page : Page) : SegState :=
  let found_y : Bool × Option ℚ :=
    match separatorCandidates page with
    | [] => (st.separator_found, st.separator_y)
    | c :: cs => (true, some (minByDist (page.height * (3/5)) c cs).y)
  let separator_found := found_y.1
  let separator_y := found_y.2
  match separator_y, separator_found with
  | some y, true =>
    { main_text := st.main_text ++ page.cropAbove y ++ " ",
      footnotes_text := st.footnotes_text ++ page.cropBelow y ++ " ",
      separator_found := separator_found,
      separator_y := separator_y }
  | _, _ =>
    { main_text := st.main_text ++ page.text ++ " ",
      footnotes_text := st.footnotes_text,
      separator_found := separator_found,
      separator_y := separator_y }

/-- The page loop of `find_footnote_separator`. -/
def segmentPages (pages : List Page) : SegState :=
  pages.foldl processPage initSegState

/-- The quadruple returned by `find_footnote_separator` (both buffers are
stripped, as in the source's `.strip()`). -/
def find_footnote_separator (pages : List Page) : String × String × Option ℚ × Bool :=
  let st := segmentPages pages
  (st.main_text.trim, st.footnotes_text.trim, st.separator_y, st.separator_found)

/-! ## Word counting and metrics (`extract_pdf_text_and_metadata`) -/

/-- `len(s.split())` for Python's whitespace `split`: the number of maximal
non-whitespace runs.  The boolean says whether the scan is currently inside
a word. -/
def pyWords : Bool → List Char → Nat
  | _, [] => 0
  | inWord, ch :: rest =>
    if ch.isWhitespace then pyWords false rest
    else if inWord then pyWords true rest
    else 1 + pyWords true rest

/-- `len(s.split())`. -/
def wordCount (s : String) : Nat := pyWords false s.data

/-- The word/character count fields computed by
`extract_pdf_text_and_metadata` from the two segmented buffers. -/
structure DocMetrics where
  words : Nat
  main_text_words : Nat
  footnote_words : Nat
  char_count_total : Nat
  char_count_no_space : Nat

/-- The counting part of `extract_pdf_text_and_metadata`:
`full_text = main_text + " " + footnotes_text` and the five counts. -/
def extractTextMetrics (main_text footnotes_text : String) : DocMetrics :=
  let full_text := main_text ++ " " ++ footnotes_text
  { words := wordCount full_text,
    main_text_words := wordCount main_text,
    footnote_words := wordCount footnotes_text,
    char_count_total := full_text.length,
    char_count_no_space := (full_text.data.filter (fun c => !c.isWhitespace)).length }

/-! ## Concrete records and pages used by the theorems below -/

/-- Scenario 2 of the spec: 10 pages, `ARTICLE` within the first 3000
characters of main text, 18000 words. -/
def paperC1x : PaperData :=
  { title := "t1", authors := "Faculty Author", words := 18000, pages := 10,
    main_text := "ARTICLE Some Title Text" }

/-- A student-authored record of 15000 words that enters Step D labelled
`Note_OR_Comment`. -/
def paperC2x : PaperData :=
  { title := "t2", authors := "Jane Doe, J.D. Candidate", words := 15000,
    pages := 10, main_text := "" }

/-- A 2-page record carrying keyword, authorship and length signals. -/
def paperC3x : PaperData :=
  { title := "t3", authors := "Jane Doe, J.D. Candidate", words := 25000,
    pages := 2, main_text := "ARTICLE" }

/-- A 1-page record. -/
def paperC4x : PaperData :=
  { title := "t4", authors := "Some Author", words := 12000, pages := 1,
    main_text := "NOTE" }

/-- A 3-page record, labelled by Step A's pre-filter. -/
def paperC5x : PaperData :=
  { title := "t5", authors := "Some Author", words := 5000, pages := 3,
    main_text := "" }

/-- A 12-page record whose Step B finds exactly the `ESSAY` category. -/
def paperC7x : PaperData :=
  { title := "t7", authors := "Faculty Author", words := 16000, pages := 12,
    main_text := "ESSAY" }

/-- A 5-page record with no signals at all. -/
def paperW7 : PaperData :=
  { title := "w7", authors := "", words := 0, pages := 5, main_text := "" }

/-- A student-authored record of 9000 words (Scenario 3 of the spec). -/
def paperW8 : PaperData :=
  { title := "w8", authors := "Jane Doe, J.D. Candidate", words := 9000,
    pages := 10, main_text := "" }

/-- A page with one surviving separator candidate at `y = 50`. -/
def pageC6a : Page :=
  { width := 100, height := 100, lines := [(0, 50, 80, 50)], rects := [],
    text := "m1", cropAbove := fun _ => "a1", cropBelow := fun _ => "b1" }

/-- A page with no geometry primitives at all. -/
def pageC6b : Page :=
  { width := 100, height := 100, lines := [], rects := [],
    text := "m2", cropAbove := fun _ => "a2", cropBelow := fun _ => "b2" }

/-- Another page with no geometry primitives. -/
def pageW6 : Page :=
  { width := 200, height := 300, lines := [], rects := [],
    text := "whole page text", cropAbove := fun _ => "", cropBelow := fun _ => "" }

/-- A page with one surviving separator candidate. -/
def pageW9 : Page :=
  { width := 100, height := 100, lines := [(0, 50, 80, 50)], rects := [],
    text := "t", cropAbove := fun _ => "above", cropBelow := fun _ => "below" }

/-! ## Helper lemmas -/

/-- Step A labels `Misc` exactly on records of at most three pages. -/
theorem result_after_a_label (paper : PaperData) :
    (result_after_a paper).label = if paper.pages ≤ 3 then "Misc" else "Unlabeled" := by
  by_cases hp : paper.pages ≤ 3 <;>
    simp [result_after_a, step_a_preprocessing, initResult, hp]

/-! ## Claim C1 -/

/-- Claim C1 (refuting evidence for the code bug): the record of Scenario 2 —
10 pages, `ARTICLE` within the first 3000 characters of main text, 18000
words — ends with final label `ERROR`, not `Article (confirmed)`:
`classify` never writes `result['word_count']` (despite Step D's comment
`will be added by classify()`), so Step D evaluates `wc > 15000` at the
default 0. -/
theorem c1_scenario2_ends_in_error :
    paperC1x.pages = 10 ∧ paperC1x.words = 18000 ∧
    ("ARTICLE".toList <:+: paperC1x.main_text.toList.take 3000) ∧
    (classifyResult paperC1x 2004).label = "ERROR" :=
  ⟨rfl, rfl, by decide, by decide⟩

/-! ## Claim C2 -/

/-- Claim C2 (refuting evidence for the code bug): a record that enters Step D
labelled `Note_OR_Comment` with 15000 total words ends as `Comment`, although
the claimed resolution table says `[10000, 20000] → Note`: Step D reads the
never-written `result['word_count']` key, so every `Note_OR_Comment` record is
resolved at word count 0. -/
theorem c2_note_or_comment_resolved_at_zero :
    (result_after_c paperC2x 2004).label = "Note_OR_Comment" ∧
    paperC2x.words = 15000 ∧
    (classifyResult paperC2x 2004).label = "Comment" :=
  ⟨by decide, rfl, by decide⟩

/-! ## Claim C3 -/

/-- Claim C3 (refuting evidence for the code bug): a 2-page record — even one
with keyword, authorship and length signals — gets final label `Misc`, which
is not the label `Miscellaneous` declared in `LawReviewClassifier.LABELS`. -/
theorem c3_short_paper_labelled_misc :
    paperC3x.pages = 2 ∧
    (classifyResult paperC3x 2004).label = "Misc" ∧
    (classifyResult paperC3x 2004).label ≠ "Miscellaneous" :=
  ⟨rfl, by decide, by decide⟩

/-! ## Claim C4 -/

/-- Claim C4 (refuting evidence for the code bug): a 1-page record's final
label `Misc` lies outside the closed label set `LABELS` extended with the
four confirmed variants. -/
theorem c4_misc_outside_label_set :
    (classifyResult paperC4x 2004).label = "Misc" ∧
    (classifyResult paperC4x 2004).label ∉ LABELS ++ confirmedLabels :=
  ⟨by decide, by decide⟩

/-! ## Claim C5 -/

/-- Claim C5 counterexample: a call to `classify` on a 3-page record (labelled
by Step A's pre-filter) appends no entry to the classification log — the
claimed `exactly one entry per call` fails. -/
theorem c5_counterexample_step_a_record_not_logged :
    paperC5x.pages = 3 ∧
    (classifyWithLog [] paperC5x 2004).2.length ≠ 1 :=
  ⟨rfl, by decide⟩

/-- Claim C5 as amended: a call to `classify` appends exactly one entry
`{title, year, result}` to the log when the record has more than three pages;
records labelled by Step A's pre-filter return early, before the append, and
leave the log unchanged. -/
theorem c5_amended_one_append_iff_past_step_a (log : List LogEntry)
    (paper : PaperData) (publication_year : Int) :
    (classifyWithLog log paper publication_year).2 =
      if paper.pages ≤ 3 then log
      else log ++ [{ title := paper.title, year := publication_year,
                     result := (classifyWithLog log paper publication_year).1 }] := by
  by_cases hp : paper.pages ≤ 3
  · have h1 : (result_after_a paper).label = "Misc" := by
      rw [result_after_a_label, if_pos hp]
    simp [classifyWithLog, h1, hp]
  · have h1 : (result_after_a paper).label = "Unlabeled" := by
      rw [result_after_a_label, if_neg hp]
    simp [classifyWithLog, h1, hp]

/-! ## Claim C6 -/

/-- Evaluation of the line-primitive filter on the concrete separator line. -/
theorem lineEval_50 : lineToHLine 100 (0, 50, 80, 50) = some ⟨50, 0, 80, 80⟩ := by
  simp only [lineToHLine]
  norm_num

/-- The candidate list of `pageC6a`. -/
theorem candEval_pageC6a : separatorCandidates pageC6a = [⟨50, 0, 80, 80⟩] := by
  have hb2 : (50 : ℚ) < 100 * (17/20) := by norm_num
  simp [separatorCandidates, horizontalLines, pageC6a, List.filterMap_cons,
    lineEval_50, List.filter_cons, hb2]
  norm_num

/-- The first page of the C6 run, after processing. -/
theorem procEval_pageC6a :
    processPage initSegState pageC6a = ⟨"a1 ", "b1 ", true, some 50⟩ := by
  simp only [processPage, candEval_pageC6a, minByDist, List.foldl_nil]
  simp [pageC6a, initSegState]

/-- The second page of the C6 run reuses the carried-over separator. -/
theorem procEval_pageC6b_after :
    processPage ⟨"a1 ", "b1 ", true, some 50⟩ pageC6b = ⟨"a1 a2 ", "b1 b2 ", true, some 50⟩ := by
  have hc : separatorCandidates pageC6b = [] := by decide
  simp only [processPage, hc]
  simp [pageC6b]

/-- Claim C6 counterexample: `pageC6b` has no surviving separator candidate,
yet after a preceding page that found one, part of its text is appended to
`footnote_text` (the separator position is carried over across pages rather
than reset). -/
theorem c6_counterexample_carried_over_separator :
    separatorCandidates pageC6b = [] ∧
    (segmentPages [pageC6a, pageC6b]).footnotes_text ≠
      (segmentPages [pageC6a]).footnotes_text := by
  refine ⟨by decide, ?_⟩
  have h1 : segmentPages [pageC6a, pageC6b] = ⟨"a1 a2 ", "b1 b2 ", true, some 50⟩ := by
    simp [segmentPages, procEval_pageC6a, procEval_pageC6b_after]
  have h2 : segmentPages [pageC6a] = ⟨"a1 ", "b1 ", true, some 50⟩ := by
    simp [segmentPages, procEval_pageC6a]
  rw [h1, h2]
  simp

/-- Claim C6 as amended: for a page with no surviving separator candidate,
when no earlier page found a separator either, the page's entire extracted
text is appended to `main_text` and nothing to `footnote_text`; when an
earlier page found one, the carried-over `separator_y` splits the page. -/
theorem c6_amended_no_candidate_no_prior_separator (st : SegState) (page : Page)
    (hc : separatorCandidates page = []) (hf : st.separator_found = false) :
    processPage st page = { st with main_text := st.main_text ++ page.text ++ " " } := by
  obtain ⟨m, f, sf, sy⟩ := st
  simp only at hf
  subst hf
  cases sy <;> simp [processPage, hc]

/-- Witness for the amended Claim C6 at a concrete empty page. -/
theorem c6_amended_witness :
    separatorCandidates pageW6 = [] ∧ initSegState.separator_found = false ∧
    processPage initSegState pageW6 =
      { initSegState with main_text := initSegState.main_text ++ pageW6.text ++ " " } :=
  ⟨by decide, rfl,
    c6_amended_no_candidate_no_prior_separator initSegState pageW6 (by decide) rfl⟩

/-! ## Claim C7 -/

/-- Claim C7 counterexample: a 12-page record labelled `Essay` by Step B
produces the trace `[A, B, D]` — Step C appends no trace record when Step B
already assigned a label, contrary to the claim. -/
theorem c7_counterexample_no_step_c_trace :
    paperC7x.pages = 12 ∧
    (classifyResult paperC7x 2004).steps.map stepTag = ["A", "B", "D"] :=
  ⟨rfl, by decide⟩

/-- Step A appends exactly one `A` trace record, in both branches. -/
theorem step_a_tags (paper : PaperData) (r : CResult) :
    (step_a_preprocessing paper r).steps.map stepTag = r.steps.map stepTag ++ ["A"] := by
  by_cases hp : paper.pages ≤ 3 <;> simp [step_a_preprocessing, hp, stepTag]

/-- Step B appends exactly one `B` trace record, in both branches. -/
theorem step_b_tags (paper : PaperData) (r : CResult) :
    (step_b_keyword_lookup paper r).steps.map stepTag = r.steps.map stepTag ++ ["B"] := by
  simp only [step_b_keyword_lookup]
  split <;> simp [stepTag]

/-- Step C appends exactly one `C` trace record when the label is still
`Unlabeled`. -/
theorem step_c_unlabeled_tags (paper : PaperData) (r : CResult) (y : Int)
    (h : r.label = "Unlabeled") :
    (step_c_student_check paper r y).steps.map stepTag = r.steps.map stepTag ++ ["C"] := by
  simp only [step_c_student_check, h, ne_eq]
  simp only [not_true_eq_false, if_false]
  repeat' split
  all_goals simp [stepTag]

/-- Step C returns the result unchanged — no trace record — when the label is
no longer `Unlabeled`. -/
theorem step_c_labeled_skip (paper : PaperData) (r : CResult) (y : Int)
    (h : r.label ≠ "Unlabeled") :
    step_c_student_check paper r y = r := by
  simp [step_c_student_check, h]

/-- Step D appends exactly one `D` trace record, in all branches. -/
theorem step_d_tags (r : CResult) :
    (step_d_validation r).steps.map stepTag = r.steps.map stepTag ++ ["D"] := by
  simp only [step_d_validation]
  split
  · split <;> simp [stepTag]
  · simp [stepTag]

/-- Step E appends exactly one `E` trace record. -/
theorem step_e_tags (paper : PaperData) (r : CResult) (y : Int) :
    (step_e_llm_fallback paper r y).steps.map stepTag = r.steps.map stepTag ++ ["E"] := by
  simp [step_e_llm_fallback, stepTag]

/-- The trace after steps A-D: `A`, `B`, then `C` exactly when the label
after Step B was still `Unlabeled`, then `D`. -/
theorem result_after_d_tags (paper : PaperData) (y : Int) :
    (result_after_d paper y).steps.map stepTag =
      ["A", "B"] ++ (if (result_after_b paper).label = "Unlabeled" then ["C"] else []) ++
        ["D"] := by
  by_cases hB : (result_after_b paper).label = "Unlabeled"
  · rw [if_pos hB]
    simp only [result_after_d]
    rw [step_d_tags]
    simp only [result_after_c]
    rw [step_c_unlabeled_tags _ _ _ hB]
    simp only [result_after_b]
    rw [step_b_tags]
    simp only [result_after_a]
    rw [step_a_tags]
    simp [initResult]
  · rw [if_neg hB]
    simp only [result_after_d]
    rw [step_d_tags]
    simp only [result_after_c]
    rw [step_c_labeled_skip _ _ _ hB]
    simp only [result_after_b]
    rw [step_b_tags]
    simp only [result_after_a]
    rw [step_a_tags]
    simp [initResult]

/-- For records past Step A's pre-filter, `classify` is the A-D chain
followed by Step E exactly when the label after D is `ERROR`. -/
theorem classifyResult_chain (paper : PaperData) (y : Int) (h : 3 < paper.pages) :
    classifyResult paper y =
      if (result_after_d paper y).label = "ERROR"
      then step_e_llm_fallback paper (result_after_d paper y) y
      else result_after_d paper y := by
  have h1 : (result_after_a paper).label = "Unlabeled" := by
    rw [result_after_a_label, if_neg (Nat.not_le.mpr h)]
  simp only [classifyResult, classifyWithLog, h1, ne_eq]
  simp only [result_after_d, result_after_c, result_after_b]
  simp

/-- Claim C7 as amended: for every record with more than three pages, Steps A
and B each append exactly one trace record, Step C appends exactly one only
when the label after Step B is still `Unlabeled` (and none otherwise), Step D
appends exactly one, and Step E appends one more exactly when the label after
Step D is `ERROR` — in that order. -/
theorem c7_amended_trace_shape (paper : PaperData) (y : Int) (h : 3 < paper.pages) :
    (classifyResult paper y).steps.map stepTag =
      ["A", "B"] ++ (if (result_after_b paper).label = "Unlabeled" then ["C"] else []) ++
        ["D"] ++ (if (result_after_d paper y).label = "ERROR" then ["E"] else []) := by
  rw [classifyResult_chain paper y h]
  by_cases hE : (result_after_d paper y).label = "ERROR"
  · rw [if_pos hE, step_e_tags, result_after_d_tags]
    simp [hE]
  · rw [if_neg hE, result_after_d_tags]
    simp [hE]

/-- Witness for the amended Claim C7 at a concrete 5-page record. -/
theorem c7_amended_witness :
    3 < paperW7.pages ∧
    (classifyResult paperW7 2004).steps.map stepTag =
      ["A", "B"] ++ (if (result_after_b paperW7).label = "Unlabeled" then ["C"] else []) ++
        ["D"] ++ (if (result_after_d paperW7 2004).label = "ERROR" then ["E"] else []) :=
  ⟨by decide, c7_amended_trace_shape paperW7 2004 (by decide)⟩

/-! ## Claim C8 -/

/-- Claim C8: for every record whose label is still `Unlabeled` entering
Step C, the label becomes `Note_OR_Comment` iff (the authors string contains
`J.D. Candidate` as a substring, or contains `Class of YYYY` with
`|YYYY - publication_year| ≤ 3`) and the word count is at most 20000;
otherwise it remains `Unlabeled`. -/
theorem c8_step_c_characterisation (paper : PaperData) (r : CResult) (y : Int)
    (h : r.label = "Unlabeled") :
    ((step_c_student_check paper r y).label = "Note_OR_Comment" ↔
      (("J.D. Candidate".toList <:+: paper.authors.toList ∨
        ∃ cy ∈ classMatches paper.authors.toList, |(cy : Int) - y| ≤ 3) ∧
       paper.words ≤ 20000)) ∧
    ((step_c_student_check paper r y).label = "Note_OR_Comment" ∨
     (step_c_student_check paper r y).label = "Unlabeled") := by
  have habs : ∀ a : Int, (a.natAbs ≤ 3 ↔ |a| ≤ 3) := fun a => by
    rw [Int.abs_eq_natAbs]
    omega
  by_cases hjd : "J.D. Candidate".toList <:+: paper.authors.toList <;>
    by_cases hw : paper.words ≤ 20000 <;>
      by_cases hex : ∃ cy ∈ classMatches paper.authors.toList, |(cy : Int) - y| ≤ 3 <;>
        simp_all [step_c_student_check, List.any_eq_true, habs] <;>
          first
          | (have hnle : ¬(paper.words ≤ 20000) := by omega
             simp [hnle])
          | (have hnex : ¬ ∃ cy ∈ classMatches paper.authors.data, |(cy : Int) - y| ≤ 3 := by
               push_neg
               exact hex
             simp [hnex])

/-- Witness for Claim C8 at a concrete student-authored record. -/
theorem c8_witness :
    initResult.label = "Unlabeled" ∧
    (((step_c_student_check paperW8 initResult 2004).label = "Note_OR_Comment" ↔
      (("J.D. Candidate".toList <:+: paperW8.authors.toList ∨
        ∃ cy ∈ classMatches paperW8.authors.toList, |(cy : Int) - 2004| ≤ 3) ∧
       paperW8.words ≤ 20000)) ∧
     ((step_c_student_check paperW8 initResult 2004).label = "Note_OR_Comment" ∨
      (step_c_student_check paperW8 initResult 2004).label = "Unlabeled")) :=
  ⟨rfl, c8_step_c_characterisation paperW8 initResult 2004 rfl⟩

/-! ## Claim C9 -/

/-- Python's `min` over a nonempty list returns an element of the list. -/
theorem minByDist_mem (h06 : ℚ) (c : HLine) (cs : List HLine) :
    minByDist h06 c cs ∈ c :: cs := by
  induction cs generalizing c with
  | nil => simp [minByDist]
  | cons x xs ih =>
    have hrec := ih (if |x.y - h06| < |c.y - h06| then x else c)
    simp only [minByDist, List.foldl_cons] at hrec ⊢
    rcases List.mem_cons.mp hrec with h1 | h1
    · rw [h1]
      split
      · simp
      · simp
    · simp [h1]

/-- Python's `min` over a nonempty list attains the minimal key. -/
theorem minByDist_le (h06 : ℚ) (c : HLine) (cs : List HLine) :
    ∀ d ∈ c :: cs, |(minByDist h06 c cs).y - h06| ≤ |d.y - h06| := by
  induction cs generalizing c with
  | nil =>
    intro d hd
    rcases List.mem_cons.mp hd with h1 | h1
    · rw [h1]
      simp [minByDist]
    · simp at h1
  | cons x xs ih =>
    intro d hd
    simp only [minByDist, List.foldl_cons]
    have hkey := ih (if |x.y - h06| < |c.y - h06| then x else c)
    have hc2c : |(if |x.y - h06| < |c.y - h06| then x else c).y - h06| ≤ |c.y - h06| := by
      split
      · rename_i hlt
        exact le_of_lt hlt
      · exact le_refl _
    have hc2x : |(if |x.y - h06| < |c.y - h06| then x else c).y - h06| ≤ |x.y - h06| := by
      split
      · exact le_refl _
      · rename_i hnlt
        exact le_of_not_lt hnlt
    have hself := hkey _ (List.mem_cons_self _ _)
    rcases List.mem_cons.mp hd with h1 | h1
    · rw [h1]
      exact le_trans hself hc2c
    · rcases List.mem_cons.mp h1 with h2 | h2
      · rw [h2]
        exact le_trans hself hc2x
      · exact hkey d (List.mem_cons_of_mem _ h2)

/-- Claim C9: on every page with at least one surviving separator candidate,
the analyzer reports `separator_found = true` and a `separator_y` equal to
the `y` of a candidate minimising the distance to `0.6 * height` over the
candidate set. -/
theorem c9_separator_minimises_distance (st : SegState) (page : Page)
    (h : separatorCandidates page ≠ []) :
    (processPage st page).separator_found = true ∧
    ∃ c ∈ separatorCandidates page,
      (processPage st page).separator_y = some c.y ∧
      ∀ d ∈ separatorCandidates page,
        |c.y - page.height * (3/5)| ≤ |d.y - page.height * (3/5)| := by
  rcases hc : separatorCandidates page with _ | ⟨c0, cs⟩
  · exact absurd hc h
  · have hfound : (processPage st page).separator_found = true ∧
        (processPage st page).separator_y =
          some (minByDist (page.height * (3/5)) c0 cs).y := by
      simp [processPage, hc]
    refine ⟨hfound.1, minByDist (page.height * (3/5)) c0 cs, ?_, hfound.2, ?_⟩
    · exact minByDist_mem _ _ _
    · intro d hd
      exact minByDist_le _ _ _ d hd

/-- The candidate list of `pageW9`. -/
theorem candEval_pageW9 : separatorCandidates pageW9 = [⟨50, 0, 80, 80⟩] := by
  have hb2 : (50 : ℚ) < 100 * (17/20) := by norm_num
  simp [separatorCandidates, horizontalLines, pageW9, List.filterMap_cons,
    lineEval_50, List.filter_cons, hb2]
  norm_num

/-- Witness for Claim C9 at a concrete page with one candidate. -/
theorem c9_witness :
    separatorCandidates pageW9 ≠ [] ∧
    ((processPage initSegState pageW9).separator_found = true ∧
     ∃ c ∈ separatorCandidates pageW9,
       (processPage initSegState pageW9).separator_y = some c.y ∧
       ∀ d ∈ separatorCandidates pageW9,
         |c.y - pageW9.height * (3/5)| ≤ |d.y - pageW9.height * (3/5)|) :=
  ⟨by simp [candEval_pageW9],
    c9_separator_minimises_distance initSegState pageW9 (by simp [candEval_pageW9])⟩

/-! ## Claim C10 -/

/-- Splitting a character list at an inserted space is additive for Python's
whitespace word count. -/
theorem pyWords_append_space (b : Bool) (xs ys : List Char) :
    pyWords b (xs ++ ' ' :: ys) = pyWords b xs + pyWords false ys := by
  induction xs generalizing b with
  | nil =>
    have hws : (' ').isWhitespace = true := by decide
    simp [pyWords, hws]
  | cons ch xs ih =>
    by_cases hw : ch.isWhitespace <;> cases b <;>
      simp [pyWords, hw, ih, Nat.add_assoc]

/-- Claim C10: the extractor's word counts are additive — the main-text and
footnote word counts sum to the total word count of
`main_text ++ " " ++ footnotes_text`, because Python's whitespace `split`
cannot merge tokens across the inserted space. -/
theorem c10_word_counts_additive (main_text footnotes_text : String) :
    (extractTextMetrics main_text footnotes_text).main_text_words +
      (extractTextMetrics main_text footnotes_text).footnote_words =
    (extractTextMetrics main_text footnotes_text).words := by
  simp only [extractTextMetrics, wordCount]
  have h1 : (main_text ++ " " ++ footnotes_text).data
      = main_text.data ++ ' ' :: footnotes_text.data := by
    simp [String.data_append]
  rw [h1, pyWords_append_space]

end Pilotmila
